import Mathlib

/-!
Verification of the TinySolder control core (ATtiny13 T12 soldering station).

The embedding models the firmware in `src/software/TinySolder.ino` (v1.1) and,
where a claim also cites it, the earlier variant
`src/software/sources/SolderingStation_Tiny13_v1.0.ino`.  All machine
quantities are 16-bit unsigned on the AVR target (`uint16_t`, and plain
`int`/`unsigned int` are also 16 bits there), so every arithmetic step a C
expression performs in 16-bit width is modelled on `Nat` with an explicit
reduction modulo 2^16 (`u16`).
-/

namespace TinySolder

/-- Reduction modulo 2^16: the effect of performing an operation in the
AVR's 16-bit unsigned arithmetic. -/
def u16 (n : Nat) : Nat := n % 65536

/-! ### Configuration constants (TinySolder.ino, `#define` lines 76-85) -/

/-- ADC3 reading in sleep mode. -/
def TEMPSLEEP : Nat := 100
/-- ADC3 reading at 150 degrees C. -/
def TEMP150 : Nat := 118
/-- ADC3 reading at 300 degrees C. -/
def TEMP300 : Nat := 221
/-- ADC3 reading at 450 degrees C. -/
def TEMP450 : Nat := 324
/-- Cycle delay time in milliseconds (v1.1). -/
def CYCLETIME : Nat := 50
/-- Time to enter sleep mode in seconds (v1.1). -/
def TIME2SLEEP : Nat := 300
/-- Time to shut off heater in seconds (v1.1). -/
def TIME2OFF : Nat := 600

/-! ### Analog sampler (`ADC_read`, TinySolder.ino lines 113-124)

The hardware loop takes 16 successive ADC conversions; the embedding takes
the sequence of conversion results as input.  The accumulator `result` is a
`uint16_t`, so each `result += ADC` is a 16-bit addition. -/

/-- `ADC_read`: sum the conversion results in a 16-bit accumulator and
return the sum shifted right by 4 (TinySolder.ino line 123).  The
`readings` list stands for the 16 successive values the `for` loop reads
from the `ADC` register. -/
def ADC_read (readings : List Nat) : Nat :=
  (readings.foldl (fun result adc => u16 (result + adc)) 0) >>> 4

/-! ### Setpoint mapping (TinySolder.ino lines 184-185; v1.0 lines 84-85)

In v1.1 the multiplication `poti * (TEMP300 - TEMP150)` happens in 16-bit
unsigned arithmetic (the `(uint32_t)` cast is applied only to the already
shifted result), hence the `u16`.  Both branches shift right by 9. -/

/-- Setpoint computation of TinySolder.ino (v1.1), lines 184-185. -/
def mapSetpoint (poti : Nat) : Nat :=
  if poti < 512 then u16 (poti * (TEMP300 - TEMP150)) >>> 9 + TEMP150
  else u16 ((poti - 512) * (TEMP450 - TEMP300)) >>> 9 + TEMP300

/-- Setpoint computation of SolderingStation_Tiny13_v1.0.ino, lines 84-85:
the multiplication and division are carried out in `uint32_t`, the low
branch divides by 512, and the high branch divides by 511. -/
def mapSetpoint_v10 (poti : Nat) : Nat :=
  if poti < 512 then poti * (TEMP300 - TEMP150) / 512 + TEMP150
  else (poti - 512) * (TEMP450 - TEMP300) / 511 + TEMP300

/-- The setpoint formula exactly as the specification states it (section
4.2): low branch `rawPoti * (ANCHOR_300 - ANCHOR_150) / 512 + ANCHOR_150`,
high branch `(rawPoti - 512) * (ANCHOR_450 - ANCHOR_300) / 511 +
ANCHOR_300`, truncating division.  Kept separate so it can be compared
with the two source embeddings. -/
def mapSetpoint_spec (poti : Nat) : Nat :=
  if poti < 512 then poti * (TEMP300 - TEMP150) / 512 + TEMP150
  else (poti - 512) * (TEMP450 - TEMP300) / 511 + TEMP300

/-! ### Temperature filter (TinySolder.ino line 191; v1.0 line 91) -/

/-- Low-pass filter of TinySolder.ino line 191:
`smooth = ((smooth << 3) - smooth + temp) >> 3`.  The shift, the
subtraction and the addition are 16-bit operations; 16-bit subtraction
`a - b` is `(a + 2^16 - b) mod 2^16`. -/
def filterUpdate (smooth temp : Nat) : Nat :=
  u16 (u16 (u16 (smooth <<< 3) + 65536 - smooth) + temp) >>> 3

/-- Low-pass filter of SolderingStation_Tiny13_v1.0.ino line 91:
`smooth = (smooth * 7 + temp) / 8`, with the multiplication and addition
in 16-bit arithmetic. -/
def filterUpdate_v10 (smooth temp : Nat) : Nat :=
  u16 (u16 (smooth * 7) + temp) / 8

/-- Iterate the v1.0 filter `n` times with the same raw input `raw`. -/
def filterIter (raw : Nat) : Nat → Nat → Nat
  | 0, s => s
  | n + 1, s => filterIter raw n (filterUpdate_v10 s raw)

/-! ### Heater decision (TinySolder.ino lines 188-196) -/

/-- Heater command: `if(smooth < setpoint) pinHigh(HEATER)` after
`pinLow(HEATER)` (lines 188 and 192). -/
def heaterOn (smooth setpoint : Nat) : Bool :=
  decide (smooth < setpoint)

/-- Status LED command: `if((smooth + 10 > setpoint) && (setpoint + 10 >
smooth)) pinHigh(LED)` after `pinLow(LED)` (lines 195-196); the two
additions are 16-bit. -/
def statusOn (smooth setpoint : Nat) : Bool :=
  decide (u16 (smooth + 10) > setpoint) && decide (u16 (setpoint + 10) > smooth)

/-! ### Main loop cycle and power thresholds (TinySolder.ino lines 181-201) -/

/-- State persisting across main-loop cycles: the smoothed temperature and
the activity counter `handleTimer` (a volatile `uint16_t`). -/
structure MainState where
  smooth : Nat
  handleTimer : Nat
deriving Repr, DecidableEq

/-- Observable outputs of one main-loop cycle. -/
structure CycleOut where
  setpoint : Nat
  heater : Bool
  led : Bool
  entersSleep : Bool
deriving Repr, DecidableEq

/-- One iteration of the `while(1)` main loop (lines 181-201): compute the
setpoint from the potentiometer sample, update the filter with the
temperature sample, drive heater and status LED, then
`if(handleTimer++ > TIME2SLEEP/CYCLETIME*1000) sleep()` — the comparison
uses the pre-increment value and the increment is a 16-bit increment. -/
def mainCycle (st : MainState) (poti temp : Nat) : MainState × CycleOut :=
  let setpoint := mapSetpoint poti
  let smooth := filterUpdate st.smooth temp
  let heater := heaterOn smooth setpoint
  let led := statusOn smooth setpoint
  let entersSleep := decide (st.handleTimer > TIME2SLEEP / CYCLETIME * 1000)
  (⟨smooth, u16 (st.handleTimer + 1)⟩, ⟨setpoint, heater, led, entersSleep⟩)

/-- The least `handleTimer` value at which a main-loop cycle enters the
sleep inner loop: the check `handleTimer++ > TIME2SLEEP/CYCLETIME*1000`
(line 199) compares the cycle's starting value strictly against
`300/50*1000 = 6000`, so the first transitioning cycle starts at 6001. -/
def SLEEP_THRESHOLD : Nat := TIME2SLEEP / CYCLETIME * 1000 + 1

/-- The `handleTimer` value from which the sleep inner loop is in the off
state: `if(handleTimer < TIME2OFF/CYCLETIME*1000)` (line 137) takes the
off branch exactly when the timer is at least `600/50*1000 = 12000`. -/
def OFF_THRESHOLD : Nat := TIME2OFF / CYCLETIME * 1000

/-! ### Sleep inner loop (`sleep`, TinySolder.ino lines 134-149) -/

/-- One iteration of the `while(handleTimer)` body in `sleep()`: the
heater is first forced low (line 136); if the timer is below the off
threshold it is incremented (16-bit), a temperature is sampled and the
heater re-energised exactly when the raw reading is below `TEMPSLEEP`
(lines 138-141); otherwise nothing but the LED pattern changes.  Returns
the new timer value and the heater level the iteration leaves behind. -/
def sleepStep (timer : Nat) (temp : Nat) : Nat × Bool :=
  if timer < TIME2OFF / CYCLETIME * 1000 then
    (u16 (timer + 1), decide (temp < TEMPSLEEP))
  else
    (timer, false)

/-- Run the sleep inner loop over a sequence of sampled temperatures,
collecting the heater level left by each iteration. -/
def sleepSteps (timer : Nat) : List Nat → Nat × List Bool
  | [] => (timer, [])
  | t :: ts =>
      let s := sleepStep timer t
      let rest := sleepSteps s.1 ts
      (rest.1, s.2 :: rest.2)

/-- The controlling condition of the sleep inner loop,
`while(handleTimer)` (line 135). -/
def sleepCond (timer : Nat) : Bool := decide (timer ≠ 0)

/-! ### Whole-system state and the pin-change interrupt handler -/

/-- The complete mutable state visible to the firmware outside the
hardware registers: the two persistent `uint16_t` variables and the three
latched output levels. -/
structure SystemState where
  smooth : Nat
  handleTimer : Nat
  heaterPin : Bool
  ledPin : Bool
  ledIsOutput : Bool
deriving Repr, DecidableEq

/-- `ISR(PCINT0_vect)` (TinySolder.ino lines 152-154): the handle-movement
interrupt handler writes 0 to `handleTimer` and does nothing else. -/
def ISR_PCINT0 (st : SystemState) : SystemState :=
  { st with handleTimer := 0 }

/-! ### Helper lemmas -/

/-- `u16` is the identity below 2^16. -/
theorem u16_eq_of_lt {n : Nat} (h : n < 65536) : u16 n = n :=
  Nat.mod_eq_of_lt h

/-- On the 10-bit ADC domain the v1.1 setpoint computation is the
two-segment map with divisor 512 in both branches. -/
theorem mapSetpoint_eq {poti : Nat} (h : poti ≤ 1023) :
    mapSetpoint poti =
      if poti < 512 then poti * (TEMP300 - TEMP150) / 512 + TEMP150
      else (poti - 512) * (TEMP450 - TEMP300) / 512 + TEMP300 := by
  unfold mapSetpoint u16 TEMP150 TEMP300 TEMP450
  split
  · rw [Nat.mod_eq_of_lt (by omega), Nat.shiftRight_eq_div_pow]
  · rw [Nat.mod_eq_of_lt (by omega), Nat.shiftRight_eq_div_pow]

/-- On the 10-bit domain the v1.1 shift-based filter equals the truncating
arithmetic form. -/
theorem filterUpdate_eq {smooth temp : Nat} (hs : smooth ≤ 1023)
    (ht : temp ≤ 1023) : filterUpdate smooth temp = (smooth * 7 + temp) / 8 := by
  unfold filterUpdate u16
  rw [Nat.shiftLeft_eq, Nat.shiftRight_eq_div_pow]
  norm_num
  omega

/-- On the 10-bit domain the v1.0 filter equals the truncating arithmetic
form. -/
theorem filterUpdate_v10_eq {smooth temp : Nat} (hs : smooth ≤ 1023)
    (ht : temp ≤ 1023) : filterUpdate_v10 smooth temp = (smooth * 7 + temp) / 8 := by
  unfold filterUpdate_v10 u16
  omega

/-- A fixed point of the filter update is left unchanged by any number of
iterations. -/
theorem filterIter_fixed (raw s : Nat) (h : filterUpdate_v10 s raw = s) :
    ∀ n, filterIter raw n s = s := by
  intro n
  induction n with
  | zero => rfl
  | succ n ih => rw [filterIter, h]; exact ih

/-- Starting at or above the constant raw input, the iterated filter
reaches exactly the raw value once the iteration count covers the initial
distance. -/
theorem filterIter_above (raw : Nat) (hr : raw ≤ 1023) :
    ∀ n s, raw ≤ s → s ≤ 1023 → s ≤ raw + n → filterIter raw n s = raw := by
  intro n
  induction n with
  | zero =>
    intro s h1 h2 h3
    have hs : s = raw := by omega
    rw [show filterIter raw 0 s = s from rfl, hs]
  | succ n ih =>
    intro s h1 h2 h3
    rw [filterIter, filterUpdate_v10_eq h2 hr]
    exact ih ((s * 7 + raw) / 8) (by omega) (by omega) (by omega)

/-- Starting below the constant raw input, the iterated filter reaches a
fixed point of the update, which lies between the start and the raw
value. -/
theorem filterIter_below (raw : Nat) (hr : raw ≤ 1023) :
    ∀ n s, s ≤ raw → raw ≤ s + n + 7 →
      s ≤ filterIter raw n s ∧ filterIter raw n s ≤ raw ∧
      filterUpdate_v10 (filterIter raw n s) raw = filterIter raw n s := by
  intro n
  induction n with
  | zero =>
    intro s h1 h2
    refine ⟨Nat.le_refl s, h1, ?_⟩
    rw [show filterIter raw 0 s = s from rfl,
      filterUpdate_v10_eq (h1.trans hr) hr]
    omega
  | succ n ih =>
    intro s h1 h2
    have hs1023 : s ≤ 1023 := h1.trans hr
    rw [filterIter, filterUpdate_v10_eq hs1023 hr]
    obtain ⟨a, b, c⟩ := ih ((s * 7 + raw) / 8) (by omega) (by omega)
    exact ⟨le_trans (by omega) a, b, c⟩

/-- The accumulator loop of `ADC_read` computes the plain sum as long as
the sum fits in 16 bits. -/
theorem foldl_u16_sum (l : List Nat) :
    ∀ acc : Nat, acc + l.sum < 65536 →
      l.foldl (fun result adc => u16 (result + adc)) acc = acc + l.sum := by
  induction l with
  | nil => intro acc h; simp
  | cons x xs ih =>
    intro acc h
    simp only [List.foldl_cons, List.sum_cons] at h ⊢
    rw [u16_eq_of_lt (by omega), ih (acc + x) (by omega)]
    omega

/-- A list of values bounded by 1023 has sum at most 1023 times its
length. -/
theorem sum_le_of_bounded (l : List Nat) (h : ∀ x ∈ l, x ≤ 1023) :
    l.sum ≤ 1023 * l.length := by
  induction l with
  | nil => simp
  | cons x xs ih =>
    simp only [List.sum_cons, List.length_cons]
    have hx : x ≤ 1023 := h x (by simp)
    have hxs : xs.sum ≤ 1023 * xs.length := ih (fun y hy => h y (by simp [hy]))
    omega

/-- `ADC_read` returns the truncated sixteenth of the sum of its readings
whenever that sum fits in the 16-bit accumulator. -/
theorem ADC_read_eq (readings : List Nat) (h : readings.sum < 65536) :
    ADC_read readings = readings.sum / 16 := by
  unfold ADC_read
  rw [foldl_u16_sum readings 0 (by omega), Nat.shiftRight_eq_div_pow]
  norm_num

/-- The sleep inner loop in the off state changes nothing and leaves the
heater low on every iteration. -/
theorem sleepSteps_off (timer : Nat) (h : OFF_THRESHOLD ≤ timer) :
    ∀ temps : List Nat,
      sleepSteps timer temps = (timer, List.replicate temps.length false) := by
  have hoff : ¬ timer < TIME2OFF / CYCLETIME * 1000 := by
    unfold OFF_THRESHOLD at h
    omega
  intro temps
  induction temps with
  | nil => rfl
  | cons t ts ih =>
    have hs : sleepStep timer t = (timer, false) := by
      unfold sleepStep
      rw [if_neg hoff]
    simp only [sleepSteps, hs, ih, List.replicate]

/-! ### Claim theorems -/

/-- Claim C1, counterexample: the v1.1 setpoint computation does not
follow the claimed formula with divisor 511 in the high branch.  At
`rawPoti = 1023` the code yields 323 while the claimed formula (and the
claimed value) is 324. -/
theorem claim_C1_counterexample :
    mapSetpoint 1023 = 323 ∧ mapSetpoint_spec 1023 = 324 ∧
    mapSetpoint 1023 ≠ mapSetpoint_spec 1023 := by
  decide

/-- Claim C1, amended: for every `rawPoti` in 0..1023 the v1.1 code
computes the low branch exactly as claimed, but the high branch as
`(rawPoti - 512) * (ANCHOR_450 - ANCHOR_300) / 512 + ANCHOR_300` (a right
shift by 9, divisor 512 rather than 511), so `mapSetpoint 1023 = 323`
while the other three claimed values 118, 220 and 221 hold; the v1.0
source implements the claimed formula with divisor 511 and yields 324 at
1023. -/
theorem claim_C1_amended (poti : Nat) (h : poti ≤ 1023) :
    mapSetpoint poti =
      (if poti < 512 then poti * (TEMP300 - TEMP150) / 512 + TEMP150
       else (poti - 512) * (TEMP450 - TEMP300) / 512 + TEMP300) ∧
    mapSetpoint_v10 poti = mapSetpoint_spec poti ∧
    mapSetpoint 0 = 118 ∧ mapSetpoint 511 = 220 ∧ mapSetpoint 512 = 221 ∧
    mapSetpoint 1023 = 323 ∧ mapSetpoint_v10 1023 = 324 :=
  ⟨mapSetpoint_eq h, rfl, by decide, by decide, by decide, by decide, by decide⟩

/-- Claim C1, witness: the amended characterisation applied at
`rawPoti = 1023`. -/
theorem claim_C1_witness : mapSetpoint 1023 = 323 ∧ mapSetpoint_v10 1023 = 324 :=
  ⟨(claim_C1_amended 1023 (by decide)).2.2.2.2.2.1,
   (claim_C1_amended 1023 (by decide)).2.2.2.2.2.2⟩

/-- Claim C2: on the reachable domain the heater decision is the strict
comparison `smoothed < setpoint` and the status decision is the
conjunction of the two strict tolerance comparisons with TOLERANCE 10,
with the three stated example triples. -/
theorem claim_C2 (smoothed setpoint : Nat) (hs : smoothed ≤ 1023)
    (hp : setpoint ≤ 1023) :
    heaterOn smoothed setpoint = decide (smoothed < setpoint) ∧
    statusOn smoothed setpoint =
      (decide (smoothed + 10 > setpoint) && decide (setpoint + 10 > smoothed)) ∧
    heaterOn 220 221 = true ∧ statusOn 220 221 = true ∧
    heaterOn 200 221 = true ∧ statusOn 200 221 = false ∧
    statusOn 231 221 = false := by
  refine ⟨rfl, ?_, by decide, by decide, by decide, by decide, by decide⟩
  unfold statusOn u16
  rw [Nat.mod_eq_of_lt (by omega), Nat.mod_eq_of_lt (by omega)]

/-- Claim C2, witness: the decision equations applied at
smoothed = 220, setpoint = 221. -/
theorem claim_C2_witness : heaterOn 220 221 = true ∧ statusOn 220 221 = true :=
  ⟨(claim_C2 220 221 (by decide) (by decide)).2.2.1,
   (claim_C2 220 221 (by decide) (by decide)).2.2.2.1⟩

/-- Claim C3: every main-loop cycle runs the control loop (filter update
and setpoint computation); a cycle beginning with the activity timer below
`SLEEP_THRESHOLD` does not enter the sleep loop and increments the timer
by one, a cycle beginning at exactly `SLEEP_THRESHOLD` enters the sleep
loop, and a cycle beginning at `SLEEP_THRESHOLD - 1` does not. -/
theorem claim_C3 (st : MainState) (poti temp : Nat) :
    (mainCycle st poti temp).1.smooth = filterUpdate st.smooth temp ∧
    (mainCycle st poti temp).2.setpoint = mapSetpoint poti ∧
    (st.handleTimer < SLEEP_THRESHOLD →
      (mainCycle st poti temp).2.entersSleep = false ∧
      (mainCycle st poti temp).1.handleTimer = st.handleTimer + 1) ∧
    (st.handleTimer = SLEEP_THRESHOLD →
      (mainCycle st poti temp).2.entersSleep = true) ∧
    (st.handleTimer = SLEEP_THRESHOLD - 1 →
      (mainCycle st poti temp).2.entersSleep = false) := by
  have hth : SLEEP_THRESHOLD = 6001 := by decide
  refine ⟨rfl, rfl, fun h => ⟨?_, ?_⟩, fun h => ?_, fun h => ?_⟩
  · show decide (st.handleTimer > TIME2SLEEP / CYCLETIME * 1000) = false
    rw [hth] at h
    unfold TIME2SLEEP CYCLETIME
    simp only [decide_eq_false_iff_not]
    omega
  · show u16 (st.handleTimer + 1) = st.handleTimer + 1
    rw [hth] at h
    exact u16_eq_of_lt (by omega)
  · show decide (st.handleTimer > TIME2SLEEP / CYCLETIME * 1000) = true
    rw [hth] at h
    unfold TIME2SLEEP CYCLETIME
    simp only [decide_eq_true_eq]
    omega
  · show decide (st.handleTimer > TIME2SLEEP / CYCLETIME * 1000) = false
    rw [hth] at h
    unfold TIME2SLEEP CYCLETIME
    simp only [decide_eq_false_iff_not]
    omega

/-- Claim C3, witness: a cycle beginning at `SLEEP_THRESHOLD - 1 = 6000`
stays in the main loop, a cycle beginning at `SLEEP_THRESHOLD = 6001`
enters the sleep loop. -/
theorem claim_C3_witness :
    (mainCycle ⟨100, 6000⟩ 5 7).2.entersSleep = false ∧
    (mainCycle ⟨100, 6001⟩ 5 7).2.entersSleep = true :=
  ⟨(claim_C3 ⟨100, 6000⟩ 5 7).2.2.2.2 (by decide),
   (claim_C3 ⟨100, 6001⟩ 5 7).2.2.2.1 (by decide)⟩

/-- Claim C4: once the activity timer has reached `OFF_THRESHOLD`, every
further sleep-loop iteration leaves the heater low whatever temperatures
are sampled, the timer is never incremented again, and the loop condition
still holds (so the state persists until an external reset). -/
theorem claim_C4 (timer : Nat) (temps : List Nat) (h : OFF_THRESHOLD ≤ timer) :
    (sleepSteps timer temps).1 = timer ∧
    (sleepSteps timer temps).2 = List.replicate temps.length false ∧
    sleepCond timer = true := by
  rw [sleepSteps_off timer h temps]
  refine ⟨rfl, rfl, ?_⟩
  unfold sleepCond
  unfold OFF_THRESHOLD TIME2OFF CYCLETIME at h
  simp only [decide_eq_true_eq]
  omega

/-- Claim C4, witness: three off-state iterations with temperatures 0, 99
and 1023 leave the timer at 12000 and the heater low throughout. -/
theorem claim_C4_witness :
    (sleepSteps 12000 [0, 99, 1023]).1 = 12000 ∧
    (sleepSteps 12000 [0, 99, 1023]).2 = List.replicate 3 false ∧
    sleepCond 12000 = true :=
  claim_C4 12000 [0, 99, 1023] (by decide)

/-- Claim C5, counterexample: the filter does not converge to the raw
input from below — smoothed 220 with constant raw 221 is a fixed point of
the update, so no number of iterations ever reaches 221. -/
theorem claim_C5_counterexample :
    filterUpdate_v10 220 221 = 220 ∧ filterIter 221 1023 220 = 220 ∧
    (220 : Nat) ≠ 221 :=
  ⟨by decide, filterIter_fixed 221 220 (by decide) 1023, by decide⟩

/-- Claim C5, amended: iterating the filter with a constant raw input
converges within 1023 iterations to a fixed point of the update; the
fixed point is at most the raw value and within 7 of it, it equals the
raw value exactly whenever the start was at or above the raw value, and a
state equal to the raw input is left fixed. -/
theorem claim_C5_amended (s raw : Nat) (hs : s ≤ 1023) (hr : raw ≤ 1023) :
    filterUpdate_v10 (filterIter raw 1023 s) raw = filterIter raw 1023 s ∧
    filterIter raw 1023 s ≤ raw ∧
    raw ≤ filterIter raw 1023 s + 7 ∧
    (raw ≤ s → filterIter raw 1023 s = raw) ∧
    filterUpdate_v10 raw raw = raw := by
  have idem : filterUpdate_v10 raw raw = raw := by
    rw [filterUpdate_v10_eq hr hr]
    omega
  by_cases hc : raw ≤ s
  · have hfix := filterIter_above raw hr 1023 s hc hs (by omega)
    rw [hfix]
    exact ⟨idem, Nat.le_refl raw, by omega, fun _ => rfl, idem⟩
  · obtain ⟨a, b, c⟩ := filterIter_below raw hr 1023 s (by omega) (by omega)
    refine ⟨c, b, ?_, fun hcon => absurd hcon hc, idem⟩
    have hcdiv : (filterIter raw 1023 s * 7 + raw) / 8 = filterIter raw 1023 s := by
      rw [← filterUpdate_v10_eq (b.trans hr) hr]
      exact c
    omega

/-- Claim C5, witness: from smoothed 300 with constant raw 221 the filter
reaches exactly 221, and 221 is fixed under its own raw value. -/
theorem claim_C5_witness :
    filterIter 221 1023 300 = 221 ∧ filterUpdate_v10 221 221 = 221 :=
  ⟨(claim_C5_amended 300 221 (by decide) (by decide)).2.2.2.1 (by decide),
   (claim_C5_amended 300 221 (by decide) (by decide)).2.2.2.2⟩

/-- Claim C6: over 16 readings each in the 10-bit range, `ADC_read`
returns the integer-truncated arithmetic mean, the sum divided by 16
rounding down. -/
theorem claim_C6 (readings : List Nat) (hlen : readings.length = 16)
    (hb : ∀ x ∈ readings, x ≤ 1023) :
    ADC_read readings = readings.sum / 16 := by
  have hsum : readings.sum ≤ 1023 * 16 := by
    have := sum_le_of_bounded readings hb
    rw [hlen] at this
    exact this
  exact ADC_read_eq readings (by omega)

/-- Claim C6, witness: sixteen readings summing to 17 yield 1, the
truncated mean, not 2. -/
theorem claim_C6_witness :
    ADC_read [1, 1, 1, 1, 1, 1, 1, 1, 1, 1, 1, 1, 1, 1, 1, 2] =
      [1, 1, 1, 1, 1, 1, 1, 1, 1, 1, 1, 1, 1, 1, 1, 2].sum / 16 ∧
    [1, 1, 1, 1, 1, 1, 1, 1, 1, 1, 1, 1, 1, 1, 1, 2].sum / 16 = 1 :=
  ⟨claim_C6 [1, 1, 1, 1, 1, 1, 1, 1, 1, 1, 1, 1, 1, 1, 1, 2]
      (by decide) (by decide), by decide⟩

/-- Claim C7: the setpoint map is monotonically non-decreasing over the
whole 10-bit input domain, including across the segment breakpoint at
511/512. -/
theorem claim_C7 (a b : Nat) (hab : a ≤ b) (hb : b ≤ 1023) :
    mapSetpoint a ≤ mapSetpoint b := by
  rw [mapSetpoint_eq (hab.trans hb), mapSetpoint_eq hb]
  unfold TEMP150 TEMP300 TEMP450
  split <;> split <;> omega

/-- Claim C7, witness: monotonicity applied at the endpoints 0 and
1023. -/
theorem claim_C7_witness : mapSetpoint 0 ≤ mapSetpoint 1023 :=
  claim_C7 0 1023 (by decide) (by decide)

/-- Claim C8: on the 10-bit domain the v1.1 shift-based filter
`((smooth << 3) - smooth + temp) >> 3` computes exactly the arithmetic
form `(smooth * 7 + temp) / 8` with truncating division, and hence agrees
with the v1.0 source variant. -/
theorem claim_C8 (smooth temp : Nat) (hs : smooth ≤ 1023) (ht : temp ≤ 1023) :
    filterUpdate smooth temp = (smooth * 7 + temp) / 8 ∧
    filterUpdate smooth temp = filterUpdate_v10 smooth temp :=
  ⟨filterUpdate_eq hs ht,
   by rw [filterUpdate_eq hs ht, filterUpdate_v10_eq hs ht]⟩

/-- Claim C8, witness: the equivalence applied at smooth = 220,
temp = 221. -/
theorem claim_C8_witness :
    filterUpdate 220 221 = (220 * 7 + 221) / 8 ∧
    filterUpdate 220 221 = filterUpdate_v10 220 221 :=
  claim_C8 220 221 (by decide) (by decide)

/-- Claim C9: the pin-change interrupt handler writes 0 to the activity
timer and leaves every other piece of state unchanged, and afterwards the
sleep loop's controlling condition is false, so control returns to the
main loop at the next check. -/
theorem claim_C9 (st : SystemState) :
    (ISR_PCINT0 st).handleTimer = 0 ∧
    (ISR_PCINT0 st).smooth = st.smooth ∧
    (ISR_PCINT0 st).heaterPin = st.heaterPin ∧
    (ISR_PCINT0 st).ledPin = st.ledPin ∧
    (ISR_PCINT0 st).ledIsOutput = st.ledIsOutput ∧
    sleepCond (ISR_PCINT0 st).handleTimer = false :=
  ⟨rfl, rfl, rfl, rfl, rfl, rfl⟩

/-- Claim C10: a sampler result over 16 in-range conversions is at most
1023, and a filter update of an in-range state with an in-range sample
stays in range while the two 16-bit intermediates of the shift form never
overflow, making the update exactly the truncating arithmetic form. -/
theorem claim_C10 (readings : List Nat) (s t : Nat) :
    (readings.length = 16 → (∀ x ∈ readings, x ≤ 1023) →
      ADC_read readings ≤ 1023) ∧
    (s ≤ 1023 → t ≤ 1023 →
      filterUpdate s t ≤ 1023 ∧ s <<< 3 < 65536 ∧ s * 7 + t < 65536 ∧
      filterUpdate s t = (s * 7 + t) / 8) := by
  constructor
  · intro hlen hb
    have hsum : readings.sum ≤ 1023 * 16 := by
      have := sum_le_of_bounded readings hb
      rw [hlen] at this
      exact this
    rw [ADC_read_eq readings (by omega)]
    omega
  · intro hs ht
    have h8 : s <<< 3 = s * 8 := by
      rw [Nat.shiftLeft_eq]
    refine ⟨?_, by omega, by omega, filterUpdate_eq hs ht⟩
    rw [filterUpdate_eq hs ht]
    omega

/-- Claim C10, witness: the bounds applied to sixteen maximal readings
and to the maximal filter state and sample. -/
theorem claim_C10_witness :
    ADC_read (List.replicate 16 1023) ≤ 1023 ∧ filterUpdate 1023 1023 ≤ 1023 :=
  ⟨(claim_C10 (List.replicate 16 1023) 0 0).1 (by decide) (by decide),
   ((claim_C10 [] 1023 1023).2 (by decide) (by decide)).1⟩

end TinySolder
